import Mathlib

/-!
Shallow embedding of the registration backend (Express/Mongoose app).

The repository contains three variants of the same server:
* the SendGrid variant (src/index.js, first file): `sendConfirmationEmail`
  catches send errors and returns `{error: ...}`, so the POST handler answers
  `201` with a "but failed to send confirmation email" message on a failed send;
* the nodemailer variant (src/index.js, second file): `sendConfirmationEmail`
  rethrows as `Error('Failed to send confirmation email')`, so the outer
  `catch` answers `500 {error: 'Server error: Failed to send confirmation email'}`;
* the no-email variant (src/unnamed/part_000): no notification at all, `201`
  with message "Customer registered successfully".

Validation, the Customer record, persistence and lookup are identical in the
three variants and are embedded once.  JavaScript-specific behaviour that the
claims depend on is modelled explicitly: field truthiness (an absent field,
the empty string, and the number 0 are all falsy), the email regular
expression, and strict string comparison against a possibly absent
`confirmPassword`.
-/

namespace RegistrationBackend

/-- JS truthiness of an optional string field: `undefined` and `""` are falsy,
every other string is truthy. -/
def truthyStr : Option String → Bool
  | none => false
  | some s => !(s == "")

/-- JS truthiness of an optional numeric field: `undefined` and `0` are falsy,
every other number is truthy. -/
def truthyNum : Option Int → Bool
  | none => false
  | some n => !(n == 0)

/-- No whitespace character occurs in the list (the `[^\s@]` character class,
whitespace half; the `@` half is checked separately). -/
def noWs (cs : List Char) : Bool := cs.all (fun c => !c.isWhitespace)

/-- The list has a `'.'` at some position `i` with `1 ≤ i ≤ length - 2`,
i.e. the domain part matches `[^\s@]+\.[^\s@]+` once its characters are known
to be non-whitespace and non-`@`. -/
def hasInnerDot (cs : List Char) : Bool :=
  match cs with
  | [] => false
  | _ :: t => t.dropLast.contains '.'

/-- The test of `/^[^\s@]+@[^\s@]+\.[^\s@]+$/` from the source: exactly one
`'@'`, a nonempty whitespace-free local part before it, and after it a
whitespace-free part containing a dot with at least one character on each
side. -/
def isEmailValid (s : String) : Bool :=
  let cs := s.toList
  let lp := cs.takeWhile (fun c => !(c == '@'))
  match cs.dropWhile (fun c => !(c == '@')) with
  | '@' :: dp =>
      !lp.isEmpty && noWs lp && !dp.isEmpty && noWs dp &&
        !(dp.contains '@') && hasInnerDot dp
  | _ => false

/-- The test of `/^\d{10}$/` from the source: exactly ten decimal digits. -/
def isPhoneValid (s : String) : Bool :=
  s.length == 10 && s.toList.all Char.isDigit

/-- The registration request body, as destructured by the POST handler.
Every field may be absent (`none`); `latitude`/`longitude` are numbers and
`deviceInfo` is an opaque optional blob. -/
structure Payload where
  fullName : Option String
  email : Option String
  phoneNumber : Option String
  gender : Option String
  dateOfBirth : Option String
  address : Option String
  password : Option String
  confirmPassword : Option String
  latitude : Option Int
  longitude : Option Int
  deviceInfo : Option String
deriving DecidableEq, Repr

/-- Outcome of the backend validation chain. -/
inductive ValidationResult where
  | valid
  | missingFields
  | invalidEmail
  | invalidPhone
  | passwordMismatch
  | passwordTooShort
deriving DecidableEq, Repr

/-- The error string the POST handler sends for each failed validation. -/
def errMessage : ValidationResult → String
  | .missingFields => "All fields are required"
  | .invalidEmail => "Invalid email format"
  | .invalidPhone => "Phone number must be 10 digits"
  | .passwordMismatch => "Passwords do not match"
  | .passwordTooShort => "Password must be at least 6 characters"
  | .valid => ""

/-- The condition of the first validation `if`:
`!fullName || !email || !phoneNumber || !gender || !dateOfBirth || !address ||
!password || !latitude || !longitude`. -/
def missingCheck (p : Payload) : Bool :=
  !truthyStr p.fullName || !truthyStr p.email || !truthyStr p.phoneNumber ||
    !truthyStr p.gender || !truthyStr p.dateOfBirth || !truthyStr p.address ||
    !truthyStr p.password || !truthyNum p.latitude || !truthyNum p.longitude

/-- The backend validation chain of the POST handler, identical in the three
variants: the five early-return `if`s, in source order. -/
def validate (p : Payload) : ValidationResult :=
  if missingCheck p then .missingFields
  else if !isEmailValid (p.email.getD "") then .invalidEmail
  else if !isPhoneValid (p.phoneNumber.getD "") then .invalidPhone
  else if p.password != p.confirmPassword then .passwordMismatch
  else if (p.password.getD "").length < 6 then .passwordTooShort
  else .valid

/-- Whether a given rule, taken in isolation, rejects the payload; the rule
contents are the source's own checks. -/
def ruleFails (p : Payload) : ValidationResult → Bool
  | .missingFields => missingCheck p
  | .invalidEmail => !isEmailValid (p.email.getD "")
  | .invalidPhone => !isPhoneValid (p.phoneNumber.getD "")
  | .passwordMismatch => p.password != p.confirmPassword
  | .passwordTooShort => (p.password.getD "").length < 6
  | .valid => false

/-- Modelled from the spec's words (§4.1): "returns either valid or the first
failing rule, in this fixed precedence order" MissingFields, InvalidEmail,
InvalidPhone, PasswordMismatch, PasswordTooShort.  Stated as the first member
of the precedence list whose rule fails, and `valid` when none fails; to be
compared with `validate`, the chain of early returns from the source. -/
def specFirstFailing (p : Payload) : ValidationResult :=
  (([ValidationResult.missingFields, ValidationResult.invalidEmail,
      ValidationResult.invalidPhone, ValidationResult.passwordMismatch,
      ValidationResult.passwordTooShort].find? (ruleFails p)).getD
    ValidationResult.valid)

/-- The persisted Customer record (the Mongoose schema, shared by the three
variants). -/
structure Customer where
  fullName : String
  email : String
  phoneNumber : String
  gender : String
  dateOfBirth : String
  address : String
  password : String
  latitude : Int
  longitude : Int
  deviceInfo : Option String
deriving DecidableEq, Repr

/-- `new Customer({...})`: the record built from the destructured body fields,
password stored as given (the source's comment defers hashing). After a
passing validation every required field is present, so the defaults are never
used on the reachable path. -/
def mkCustomer (p : Payload) : Customer :=
  { fullName := p.fullName.getD ""
    email := p.email.getD ""
    phoneNumber := p.phoneNumber.getD ""
    gender := p.gender.getD ""
    dateOfBirth := p.dateOfBirth.getD ""
    address := p.address.getD ""
    password := p.password.getD ""
    latitude := p.latitude.getD 0
    longitude := p.longitude.getD 0
    deviceInfo := p.deviceInfo }

/-- The JSON body of a response: `{message: ...}`, `{error: ...}`, or a whole
Customer document. -/
inductive RespBody where
  | msg (s : String)
  | err (s : String)
  | customerBody (c : Customer)
deriving DecidableEq, Repr

/-- An HTTP response: status code and JSON body. -/
structure Resp where
  status : Nat
  body : RespBody
deriving DecidableEq, Repr

/-- The collaborators' behaviour for one request: whether `customer.save()`
throws (and with which message), and whether the email transport succeeds. -/
structure Env where
  saveError : Option String
  emailOk : Bool
deriving DecidableEq, Repr

/-- What one run of the POST handler did: the response, the record written
(if any), and which collaborators were invoked. -/
structure RegResult where
  resp : Resp
  saved : Option Customer
  saveAttempted : Bool
  emailAttempted : Bool
deriving DecidableEq, Repr

/-- The POST /api/customers handler of the SendGrid variant:
`sendConfirmationEmail` catches its own errors and returns `{error: ...}`,
which the handler degrades to a 201 with the "but failed" message. -/
def registerSendgrid (p : Payload) (env : Env) : RegResult :=
  if validate p ≠ ValidationResult.valid then
    { resp := ⟨400, RespBody.err (errMessage (validate p))⟩
      saved := none, saveAttempted := false, emailAttempted := false }
  else
    match env.saveError with
    | some m =>
        { resp := ⟨500, RespBody.err ("Server error: " ++ m)⟩
          saved := none, saveAttempted := true, emailAttempted := false }
    | none =>
        if env.emailOk then
          { resp := ⟨201, RespBody.msg
              "Customer registered successfully and confirmation email sent"⟩
            saved := some (mkCustomer p), saveAttempted := true
            emailAttempted := true }
        else
          { resp := ⟨201, RespBody.msg
              "Customer registered successfully, but failed to send confirmation email"⟩
            saved := some (mkCustomer p), saveAttempted := true
            emailAttempted := true }

/-- The POST /api/customers handler of the nodemailer variant:
`sendConfirmationEmail` rethrows `Error('Failed to send confirmation email')`,
so a failed send reaches the outer `catch` and answers
`500 {error: 'Server error: Failed to send confirmation email'}` even though
the record was already saved. -/
def registerNodemailer (p : Payload) (env : Env) : RegResult :=
  if validate p ≠ ValidationResult.valid then
    { resp := ⟨400, RespBody.err (errMessage (validate p))⟩
      saved := none, saveAttempted := false, emailAttempted := false }
  else
    match env.saveError with
    | some m =>
        { resp := ⟨500, RespBody.err ("Server error: " ++ m)⟩
          saved := none, saveAttempted := true, emailAttempted := false }
    | none =>
        if env.emailOk then
          { resp := ⟨201, RespBody.msg
              "Customer registered successfully and confirmation email sent"⟩
            saved := some (mkCustomer p), saveAttempted := true
            emailAttempted := true }
        else
          { resp := ⟨500, RespBody.err
              "Server error: Failed to send confirmation email"⟩
            saved := some (mkCustomer p), saveAttempted := true
            emailAttempted := true }

/-- The POST /api/customers handler of the no-email variant
(src/unnamed/part_000): no notification; success answers
`201 {message: 'Customer registered successfully'}`. -/
def registerNoEmail (p : Payload) (env : Env) : RegResult :=
  if validate p ≠ ValidationResult.valid then
    { resp := ⟨400, RespBody.err (errMessage (validate p))⟩
      saved := none, saveAttempted := false, emailAttempted := false }
  else
    match env.saveError with
    | some m =>
        { resp := ⟨500, RespBody.err ("Server error: " ++ m)⟩
          saved := none, saveAttempted := true, emailAttempted := false }
    | none =>
        { resp := ⟨201, RespBody.msg "Customer registered successfully"⟩
          saved := some (mkCustomer p), saveAttempted := true
          emailAttempted := false }

/-- `Customer.findOne({phoneNumber})`: first record whose `phoneNumber` field
equals the query string exactly. -/
def findOne (db : List Customer) (phone : String) : Option Customer :=
  db.find? (fun c => c.phoneNumber == phone)

/-- The GET /api/customers/phone/:phoneNumber handler, identical in the three
variants: 500 when the query throws, 404 when no record matches, 200 with the
whole document otherwise. -/
def lookupByPhone (dbError : Option String) (db : List Customer)
    (phone : String) : Resp :=
  match dbError with
  | some m => ⟨500, RespBody.err ("Server error: " ++ m)⟩
  | none =>
      match findOne db phone with
      | none => ⟨404, RespBody.err "Customer not found"⟩
      | some c => ⟨200, RespBody.customerBody c⟩

/-- The valid payload of the spec's end-to-end test (§8), with integer
coordinates. -/
def goodPayload : Payload :=
  { fullName := some "Jane Doe"
    email := some "jane@example.com"
    phoneNumber := some "1234567890"
    gender := some "F"
    dateOfBirth := some "1990-01-01"
    address := some "1 Main St"
    password := some "secret1"
    confirmPassword := some "secret1"
    latitude := some 12
    longitude := some 56
    deviceInfo := none }

/-- `goodPayload` with mismatched passwords, both of length ≥ 6. -/
def pMismatch : Payload :=
  { goodPayload with confirmPassword := some "secret2" }

/-- `goodPayload` with matching passwords of length 5. -/
def pShort : Payload :=
  { goodPayload with password := some "abc12", confirmPassword := some "abc12" }

/-- `goodPayload` with `confirmPassword` absent. -/
def pNoConfirm : Payload :=
  { goodPayload with confirmPassword := none }

/-- `goodPayload` with latitude the number 0 (present and numeric). -/
def pZeroLat : Payload :=
  { goodPayload with latitude := some 0 }

/-- The payload with every field absent. -/
def emptyPayload : Payload :=
  { fullName := none, email := none, phoneNumber := none, gender := none
    dateOfBirth := none, address := none, password := none
    confirmPassword := none, latitude := none, longitude := none
    deviceInfo := none }

example : validate goodPayload = ValidationResult.valid := by decide
example : validate pMismatch = ValidationResult.passwordMismatch := by decide
example : validate pShort = ValidationResult.passwordTooShort := by decide
example : validate pNoConfirm = ValidationResult.passwordMismatch := by decide
example : validate pZeroLat = ValidationResult.missingFields := by decide
example : validate emptyPayload = ValidationResult.missingFields := by decide
example : isEmailValid "foo@bar" = false := by decide
example : isEmailValid "a@b.c" = true := by decide
example : isEmailValid "a@.c" = false := by decide
example : isEmailValid "a@b." = false := by decide
example : isEmailValid "a@b@c.d" = false := by decide
example : isPhoneValid "12345" = false := by decide
example : isPhoneValid "abcdefghij" = false := by decide
example : isPhoneValid "1234567890" = true := by decide

/-- The chain of early returns in the source computes exactly the first
failing rule of the spec's precedence list. -/
theorem validate_eq_specFirstFailing (p : Payload) :
    validate p = specFirstFailing p := by
  cases h1 : missingCheck p <;>
    cases h2 : isEmailValid (p.email.getD "") <;>
      cases h3 : isPhoneValid (p.phoneNumber.getD "") <;>
        cases h4 : p.password != p.confirmPassword <;>
          by_cases h5 : (p.password.getD "").length < 6 <;>
            simp [validate, specFirstFailing, List.find?, ruleFails,
              h1, h2, h3, h4, h5]

/-- Claim C2 (confirmed): validation returns `valid` or exactly the first
failing rule in the fixed precedence order MissingFields, InvalidEmail,
InvalidPhone, PasswordMismatch, PasswordTooShort; in particular, once the
first three rules pass, differing passwords of length ≥ 6 give
PasswordMismatch (mismatch is checked before length) and matching passwords
of length < 6 give PasswordTooShort. -/
theorem C2_validation_precedence (p : Payload) :
    validate p = specFirstFailing p ∧
    (missingCheck p = false → isEmailValid (p.email.getD "") = true →
      isPhoneValid (p.phoneNumber.getD "") = true →
      ((p.password ≠ p.confirmPassword →
          6 ≤ (p.password.getD "").length →
          6 ≤ (p.confirmPassword.getD "").length →
          validate p = ValidationResult.passwordMismatch) ∧
        (p.password = p.confirmPassword → (p.password.getD "").length < 6 →
          validate p = ValidationResult.passwordTooShort))) := by
  refine ⟨validate_eq_specFirstFailing p,
    fun hm he hp => ⟨fun hne _ _ => ?_, fun heq hlen => ?_⟩⟩
  · simp [validate, bne_iff_ne, hm, he, hp, hne]
  · have hlen2 : (p.confirmPassword.getD "").length < 6 := heq ▸ hlen
    simp [validate, hm, he, hp, heq, hlen2]

/-- Witness for C2: the mismatch payload (passwords "secret1"/"secret2", both
of length 7) yields PasswordMismatch, and the short payload (matching
passwords "abc12") yields PasswordTooShort. -/
theorem C2_validation_precedence_witness :
    validate pMismatch = ValidationResult.passwordMismatch ∧
    validate pShort = ValidationResult.passwordTooShort :=
  ⟨((C2_validation_precedence pMismatch).2 (by decide) (by decide)
      (by decide)).1 (by decide) (by decide) (by decide),
    ((C2_validation_precedence pShort).2 (by decide) (by decide)
      (by decide)).2 (by decide) (by decide)⟩

/-- Claim C3 counterexample: a payload in which every required field is
present and well-formed — latitude is the numeric value 0, longitude 56 —
nevertheless fails validation with MissingFields, because the source's
truthiness check `!latitude` treats the number 0 as missing. -/
theorem C3_zero_latitude_cex :
    truthyStr pZeroLat.fullName = true ∧ truthyStr pZeroLat.email = true ∧
    truthyStr pZeroLat.phoneNumber = true ∧ truthyStr pZeroLat.gender = true ∧
    truthyStr pZeroLat.dateOfBirth = true ∧ truthyStr pZeroLat.address = true ∧
    truthyStr pZeroLat.password = true ∧ pZeroLat.latitude = some 0 ∧
    pZeroLat.longitude = some 56 ∧
    validate pZeroLat = ValidationResult.missingFields := by decide

/-- Claim C3 (corrected): validation returns MissingFields exactly when at
least one of the nine required fields is JS-falsy — absent, the empty
string, or (for latitude/longitude) the number 0.  A payload whose latitude
or longitude is 0 therefore DOES fail with MissingFields. -/
theorem C3_missing_fields_rule (p : Payload) :
    (validate p = ValidationResult.missingFields ↔
      (truthyStr p.fullName = false ∨ truthyStr p.email = false ∨
        truthyStr p.phoneNumber = false ∨ truthyStr p.gender = false ∨
        truthyStr p.dateOfBirth = false ∨ truthyStr p.address = false ∨
        truthyStr p.password = false ∨ truthyNum p.latitude = false ∨
        truthyNum p.longitude = false)) ∧
    (∀ s : Option String, truthyStr s = false ↔ s = none ∨ s = some "") ∧
    (∀ n : Option Int, truthyNum n = false ↔ n = none ∨ n = some 0) := by
  refine ⟨?_, ?_, ?_⟩
  · have hmc : validate p = ValidationResult.missingFields ↔
        missingCheck p = true := by
      cases h1 : missingCheck p <;>
        cases h2 : isEmailValid (p.email.getD "") <;>
          cases h3 : isPhoneValid (p.phoneNumber.getD "") <;>
            cases h4 : p.password != p.confirmPassword <;>
              by_cases h5 : (p.password.getD "").length < 6 <;>
                simp [validate, h1, h2, h3, h4, h5]
    rw [hmc, missingCheck]
    simp
    tauto
  · intro s
    cases s <;> simp [truthyStr]
  · intro n
    cases n <;> simp [truthyNum]

/-- Claim C1 counterexample: in the nodemailer variant, a registration whose
persistence write succeeded (the record was saved) but whose notification
send failed answers HTTP 500, not a 201-class success: the notification
failure IS escalated to a request failure. -/
theorem C1_notification_escalation_cex :
    validate goodPayload = ValidationResult.valid ∧
    (registerNodemailer goodPayload (Env.mk none false)).saved =
      some (mkCustomer goodPayload) ∧
    (registerNodemailer goodPayload (Env.mk none false)).resp.status = 500 := by
  decide

/-- Claim C1 (corrected): the degradation of a notification failure to a
soft success holds only in the SendGrid variant, where a request with a
successful save answers 201 and the message distinguishes "email sent" from
"email failed"; in the nodemailer variant a notification failure after a
successful save is escalated to a 500 ServerError. -/
theorem C1_partial_failure_policy (p : Payload) (env : Env)
    (hv : validate p = ValidationResult.valid) (hs : env.saveError = none) :
    (registerSendgrid p env).resp.status = 201 ∧
    ((registerSendgrid p env).resp.body =
        RespBody.msg
          "Customer registered successfully and confirmation email sent" ↔
      env.emailOk = true) ∧
    (env.emailOk = false →
      (registerSendgrid p env).resp.body =
        RespBody.msg
          "Customer registered successfully, but failed to send confirmation email") ∧
    (env.emailOk = false →
      (registerNodemailer p env).resp =
        ⟨500, RespBody.err "Server error: Failed to send confirmation email"⟩) := by
  cases henv : env.emailOk <;>
    simp [registerSendgrid, registerNodemailer, hv, hs, henv]

/-- Witness for C1: the good payload with a failing email transport. -/
theorem C1_partial_failure_policy_witness :
    (registerSendgrid goodPayload (Env.mk none false)).resp.status = 201 ∧
    ((registerSendgrid goodPayload (Env.mk none false)).resp.body =
        RespBody.msg
          "Customer registered successfully and confirmation email sent" ↔
      (Env.mk none false).emailOk = true) ∧
    ((Env.mk none false).emailOk = false →
      (registerSendgrid goodPayload (Env.mk none false)).resp.body =
        RespBody.msg
          "Customer registered successfully, but failed to send confirmation email") ∧
    ((Env.mk none false).emailOk = false →
      (registerNodemailer goodPayload (Env.mk none false)).resp =
        ⟨500, RespBody.err "Server error: Failed to send confirmation email"⟩) :=
  C1_partial_failure_policy goodPayload (Env.mk none false) (by decide) rfl

/-- Claim C4 (confirmed): in all three variants, a request that passes
validation but whose `customer.save()` throws answers 500 with
`Server error: <detail>` and the notification send is never attempted. -/
theorem C4_persistence_failure (p : Payload) (env : Env) (m : String)
    (hv : validate p = ValidationResult.valid) (hs : env.saveError = some m) :
    ((registerSendgrid p env).resp =
        ⟨500, RespBody.err ("Server error: " ++ m)⟩ ∧
      (registerSendgrid p env).emailAttempted = false) ∧
    ((registerNodemailer p env).resp =
        ⟨500, RespBody.err ("Server error: " ++ m)⟩ ∧
      (registerNodemailer p env).emailAttempted = false) ∧
    ((registerNoEmail p env).resp =
        ⟨500, RespBody.err ("Server error: " ++ m)⟩ ∧
      (registerNoEmail p env).emailAttempted = false) := by
  simp [registerSendgrid, registerNodemailer, registerNoEmail, hv, hs]

/-- Witness for C4: the good payload with a throwing save. -/
theorem C4_persistence_failure_witness :
    ((registerSendgrid goodPayload (Env.mk (some "db down") true)).resp =
        ⟨500, RespBody.err ("Server error: " ++ "db down")⟩ ∧
      (registerSendgrid goodPayload (Env.mk (some "db down") true)).emailAttempted =
        false) ∧
    ((registerNodemailer goodPayload (Env.mk (some "db down") true)).resp =
        ⟨500, RespBody.err ("Server error: " ++ "db down")⟩ ∧
      (registerNodemailer goodPayload (Env.mk (some "db down") true)).emailAttempted =
        false) ∧
    ((registerNoEmail goodPayload (Env.mk (some "db down") true)).resp =
        ⟨500, RespBody.err ("Server error: " ++ "db down")⟩ ∧
      (registerNoEmail goodPayload (Env.mk (some "db down") true)).emailAttempted =
        false) :=
  C4_persistence_failure goodPayload (Env.mk (some "db down") true) "db down"
    (by decide) rfl

/-- Claim C5 (confirmed): in all three variants, a payload that fails
validation answers 400 with the failing rule's message and neither the
persistence collaborator nor the notification collaborator is invoked. -/
theorem C5_validation_short_circuit (p : Payload) (env : Env)
    (hv : validate p ≠ ValidationResult.valid) :
    ((registerSendgrid p env).resp =
        ⟨400, RespBody.err (errMessage (validate p))⟩ ∧
      (registerSendgrid p env).saveAttempted = false ∧
      (registerSendgrid p env).emailAttempted = false) ∧
    ((registerNodemailer p env).resp =
        ⟨400, RespBody.err (errMessage (validate p))⟩ ∧
      (registerNodemailer p env).saveAttempted = false ∧
      (registerNodemailer p env).emailAttempted = false) ∧
    ((registerNoEmail p env).resp =
        ⟨400, RespBody.err (errMessage (validate p))⟩ ∧
      (registerNoEmail p env).saveAttempted = false ∧
      (registerNoEmail p env).emailAttempted = false) := by
  simp [registerSendgrid, registerNodemailer, registerNoEmail, hv]

/-- Witness for C5: the payload with every field absent fails with
MissingFields and touches no collaborator. -/
theorem C5_validation_short_circuit_witness :
    ((registerSendgrid emptyPayload (Env.mk none true)).resp =
        ⟨400, RespBody.err (errMessage (validate emptyPayload))⟩ ∧
      (registerSendgrid emptyPayload (Env.mk none true)).saveAttempted = false ∧
      (registerSendgrid emptyPayload (Env.mk none true)).emailAttempted = false) ∧
    ((registerNodemailer emptyPayload (Env.mk none true)).resp =
        ⟨400, RespBody.err (errMessage (validate emptyPayload))⟩ ∧
      (registerNodemailer emptyPayload (Env.mk none true)).saveAttempted = false ∧
      (registerNodemailer emptyPayload (Env.mk none true)).emailAttempted = false) ∧
    ((registerNoEmail emptyPayload (Env.mk none true)).resp =
        ⟨400, RespBody.err (errMessage (validate emptyPayload))⟩ ∧
      (registerNoEmail emptyPayload (Env.mk none true)).saveAttempted = false ∧
      (registerNoEmail emptyPayload (Env.mk none true)).emailAttempted = false) :=
  C5_validation_short_circuit emptyPayload (Env.mk none true) (by decide)

/-- Claim C6 counterexample: the no-email variant answers a fully successful
registration with `201 {message: 'Customer registered successfully'}`, which
differs from the message the claim requires of every variant. -/
theorem C6_message_not_preserved_cex :
    validate goodPayload = ValidationResult.valid ∧
    (registerNoEmail goodPayload (Env.mk none true)).resp.status = 201 ∧
    (registerNoEmail goodPayload (Env.mk none true)).resp.body =
      RespBody.msg "Customer registered successfully" ∧
    RespBody.msg "Customer registered successfully" ≠
      RespBody.msg
        "Customer registered successfully and confirmation email sent" := by
  decide

/-- Claim C6 (corrected): the SendGrid variant answers full success with
exactly `201 'Customer registered successfully and confirmation email sent'`
and notification failure after a successful save with exactly
`201 'Customer registered successfully, but failed to send confirmation
email'`; the nodemailer variant uses the first message on full success; but
the messages are not preserved by every variant — the no-email variant
answers `201 'Customer registered successfully'`. -/
theorem C6_response_messages (p : Payload) (env : Env)
    (hv : validate p = ValidationResult.valid) (hs : env.saveError = none) :
    (env.emailOk = true →
      (registerSendgrid p env).resp =
        ⟨201, RespBody.msg
          "Customer registered successfully and confirmation email sent"⟩ ∧
      (registerNodemailer p env).resp =
        ⟨201, RespBody.msg
          "Customer registered successfully and confirmation email sent"⟩) ∧
    (env.emailOk = false →
      (registerSendgrid p env).resp =
        ⟨201, RespBody.msg
          "Customer registered successfully, but failed to send confirmation email"⟩) ∧
    (registerNoEmail p env).resp =
      ⟨201, RespBody.msg "Customer registered successfully"⟩ := by
  cases henv : env.emailOk <;>
    simp [registerSendgrid, registerNodemailer, registerNoEmail, hv, hs, henv]

/-- Witness for C6: the good payload with a working email transport. -/
theorem C6_response_messages_witness :
    ((Env.mk none true).emailOk = true →
      (registerSendgrid goodPayload (Env.mk none true)).resp =
        ⟨201, RespBody.msg
          "Customer registered successfully and confirmation email sent"⟩ ∧
      (registerNodemailer goodPayload (Env.mk none true)).resp =
        ⟨201, RespBody.msg
          "Customer registered successfully and confirmation email sent"⟩) ∧
    ((Env.mk none true).emailOk = false →
      (registerSendgrid goodPayload (Env.mk none true)).resp =
        ⟨201, RespBody.msg
          "Customer registered successfully, but failed to send confirmation email"⟩) ∧
    (registerNoEmail goodPayload (Env.mk none true)).resp =
      ⟨201, RespBody.msg "Customer registered successfully"⟩ :=
  C6_response_messages goodPayload (Env.mk none true) (by decide) rfl

/-- Claim C7 (confirmed): lookup by phone number is an exact-match query —
a 200 answer returns a stored record whose `phoneNumber` equals the query
string verbatim — and when no record matches exactly the handler answers
`404 {error: 'Customer not found'}`, an outcome distinct from the
`500 {error: 'Server error: <detail>'}` reserved for a throwing query. -/
theorem C7_lookup_by_phone (db : List Customer) (phone m : String)
    (h : ∀ c ∈ db, c.phoneNumber ≠ phone) :
    lookupByPhone none db phone = ⟨404, RespBody.err "Customer not found"⟩ ∧
    lookupByPhone (some m) db phone =
      ⟨500, RespBody.err ("Server error: " ++ m)⟩ ∧
    (∀ db2 : List Customer, ∀ c : Customer,
      lookupByPhone none db2 phone = ⟨200, RespBody.customerBody c⟩ →
        c ∈ db2 ∧ c.phoneNumber = phone) := by
  have hnone : findOne db phone = none := by
    rw [findOne, List.find?_eq_none]
    intro c hc
    simp [h c hc]
  refine ⟨by simp [lookupByPhone, hnone], by simp [lookupByPhone], ?_⟩
  intro db2 c hl
  rcases hfo : db2.find? (fun c => c.phoneNumber == phone) with _ | c2
  · simp [lookupByPhone, findOne, hfo] at hl
  · simp [lookupByPhone, findOne, hfo] at hl
    subst hl
    refine ⟨List.mem_of_find?_eq_some hfo, ?_⟩
    have hpred := List.find?_some hfo
    simpa using hpred

/-- Witness for C7: a database holding only Jane's record answers 404 for an
unregistered number, 500 when the query throws, and its one 200 answer is for
the exactly matching number. -/
theorem C7_lookup_by_phone_witness :
    lookupByPhone none [mkCustomer goodPayload] "0000000000" =
      ⟨404, RespBody.err "Customer not found"⟩ ∧
    lookupByPhone (some "boom") [mkCustomer goodPayload] "0000000000" =
      ⟨500, RespBody.err ("Server error: " ++ "boom")⟩ ∧
    (∀ db2 : List Customer, ∀ c : Customer,
      lookupByPhone none db2 "0000000000" = ⟨200, RespBody.customerBody c⟩ →
        c ∈ db2 ∧ c.phoneNumber = "0000000000") :=
  C7_lookup_by_phone [mkCustomer goodPayload] "0000000000" "boom" (by decide)

/-- Claim C8 (confirmed): validation is a pure, deterministic function of the
payload: equal payloads validate equally, and when validation rejects, the
whole request outcome — response, record written, collaborators invoked — is
independent of the persistence and notification collaborators' behaviour, in
all three variants. -/
theorem C8_validation_pure (p q : Payload) (h : p = q) :
    validate p = validate q ∧
    (validate p ≠ ValidationResult.valid →
      ∀ env1 env2 : Env,
        registerSendgrid p env1 = registerSendgrid p env2 ∧
        registerNodemailer p env1 = registerNodemailer p env2 ∧
        registerNoEmail p env1 = registerNoEmail p env2) := by
  subst h
  refine ⟨rfl, fun hv env1 env2 => ?_⟩
  simp [registerSendgrid, registerNodemailer, registerNoEmail, hv]

/-- Witness for C8: the all-absent payload is rejected identically under a
healthy environment and one with a throwing save and failing email. -/
theorem C8_validation_pure_witness :
    validate emptyPayload ≠ ValidationResult.valid ∧
    registerSendgrid emptyPayload (Env.mk none true) =
      registerSendgrid emptyPayload (Env.mk (some "db down") false) :=
  ⟨by decide,
    (((C8_validation_pure emptyPayload emptyPayload rfl).2 (by decide)
      (Env.mk none true) (Env.mk (some "db down") false))).1⟩

/-- Claim C9 (confirmed): `confirmPassword` is not among the fields of the
missing-fields check, so a payload whose nine required fields are present and
well-formed but whose `confirmPassword` is absent or empty does not fail with
MissingFields: it proceeds and fails with PasswordMismatch, the non-empty
password never being equal to the absent or empty confirmation. -/
theorem C9_confirm_password_not_required (p : Payload)
    (hm : missingCheck p = false)
    (he : isEmailValid (p.email.getD "") = true)
    (hp : isPhoneValid (p.phoneNumber.getD "") = true)
    (hc : truthyStr p.confirmPassword = false) :
    validate p ≠ ValidationResult.missingFields ∧
    validate p = ValidationResult.passwordMismatch := by
  have hpw : truthyStr p.password = true := by
    cases hx : truthyStr p.password
    · exfalso
      have hmt : missingCheck p = true := by simp [missingCheck, hx]
      simp [hmt] at hm
    · rfl
  have hne : p.password ≠ p.confirmPassword := by
    rcases hps : p.password with _ | s
    · rw [hps] at hpw
      simp [truthyStr] at hpw
    · rcases hcs : p.confirmPassword with _ | t
      · simp
      · rw [hps] at hpw
        rw [hcs] at hc
        have hs : s ≠ "" := by simpa [truthyStr] using hpw
        have ht : t = "" := by simpa [truthyStr] using hc
        simp [ht, hs]
  have hv : validate p = ValidationResult.passwordMismatch := by
    simp [validate, bne_iff_ne, hm, he, hp, hne]
  exact ⟨by simp [hv], hv⟩

/-- Witness for C9: the good payload with `confirmPassword` removed fails
with PasswordMismatch, not MissingFields. -/
theorem C9_confirm_password_not_required_witness :
    validate pNoConfirm ≠ ValidationResult.missingFields ∧
    validate pNoConfirm = ValidationResult.passwordMismatch :=
  C9_confirm_password_not_required pNoConfirm (by decide) (by decide)
    (by decide) (by decide)

/-- Claim C10 (confirmed): a successful registration stores the password
verbatim as submitted, and a successful lookup answers 200 with the entire
stored Customer record — password field included — with no hashing, masking
or field filtering on either path. -/
theorem C10_password_round_trip (p : Payload) (env : Env)
    (db : List Customer) (phone : String) (c : Customer)
    (hv : validate p = ValidationResult.valid) (hs : env.saveError = none)
    (hf : findOne db phone = some c) :
    (registerSendgrid p env).saved = some (mkCustomer p) ∧
    (mkCustomer p).password = p.password.getD "" ∧
    lookupByPhone none db phone = ⟨200, RespBody.customerBody c⟩ := by
  refine ⟨?_, rfl, by simp [lookupByPhone, hf]⟩
  cases henv : env.emailOk <;> simp [registerSendgrid, hv, hs, henv]

/-- Witness for C10: Jane's registration stores password "secret1" verbatim
and the lookup by "1234567890" answers her whole record. -/
theorem C10_password_round_trip_witness :
    (registerSendgrid goodPayload (Env.mk none true)).saved =
      some (mkCustomer goodPayload) ∧
    (mkCustomer goodPayload).password = goodPayload.password.getD "" ∧
    lookupByPhone none [mkCustomer goodPayload] "1234567890" =
      ⟨200, RespBody.customerBody (mkCustomer goodPayload)⟩ :=
  C10_password_round_trip goodPayload (Env.mk none true)
    [mkCustomer goodPayload] "1234567890" (mkCustomer goodPayload)
    (by decide) rfl (by decide)

end RegistrationBackend
